import Mathlib

/-!
Shallow embedding of the Subscription & Promo Orchestration Engine of
rubixscript/react-native-paywall.

Sources embedded:
  - `src/types` (the `unnamed/part_002` file): the data model interfaces.
  - `src/services/PromoCodeService.ts`: normalization, validation cache,
    mock validation, discount arithmetic, redemption.
  - `contexts/PaywallProvider` (the `unnamed/part_000` file): the reducer
    state machine and the `purchasePlan` / `applyPromoCode` /
    `removePromoCode` actions.

Modelling conventions: JavaScript numbers are modelled as `Rat` (the
discount arithmetic uses only +, -, *, / and `Math.max`); ISO date strings
that the code immediately feeds to `new Date(...)` are modelled as their
epoch-millisecond value (`Int`); `undefined`-able fields are `Option`;
a thrown exception from an external collaborator is an `Except.error`.
-/

namespace Paywall

/-- Embedding of `SubscriptionPlan` from src/types. `price` is a JS number (`Rat` here);
optional fields are `Option`. -/
structure SubscriptionPlan where
  id : String
  name : String
  description : String
  price : Rat
  currency : String
  duration : String
  features : List String
  originalPrice : Option Rat := none
  discountPercentage : Option Rat := none
  isPopular : Option Bool := none
  productId : Option String := none
deriving Repr, DecidableEq

/-- The inline `discount` object of the `PromoCode` interface:
kind `percentage` or `fixed` or `free_trial`, a numeric `value`, and an
optional `duration` (days, for free trials).
`type` is kept as a `String` because `calculateDiscountedPrice` switches on it
with a `default` arm. -/
structure Discount where
  type : String
  value : Rat
  duration : Option Nat := none
deriving Repr, DecidableEq

/-- The optional `restrictions` object of `PromoCode`. -/
structure PromoRestrictions where
  newCustomersOnly : Option Bool := none
  minimumPlan : Option String := none
  maximumDiscount : Option Rat := none
deriving Repr, DecidableEq

/-- Embedding of `PromoCode` from src/types. `validFrom`/`validUntil` are ISO strings in
TypeScript which the code converts with `new Date(...)` before comparing;
they are modelled directly as epoch milliseconds. -/
structure PromoCode where
  id : String
  code : String
  description : String
  discount : Discount
  maxUses : Option Nat := none
  currentUses : Nat
  validFrom : Int
  validUntil : Int
  isActive : Bool
  applicablePlans : Option (List String) := none
  restrictions : Option PromoRestrictions := none
deriving Repr, DecidableEq

/-- Embedding of `PromoCodeValidation` from src/types. -/
structure PromoCodeValidation where
  isValid : Bool
  promoCode : Option PromoCode := none
  discountedPrice : Option Rat := none
  message : String
  error : Option String := none
deriving Repr, DecidableEq

/-- Embedding of `PromoCodeApplication` from src/types; `appliedAt` (an ISO timestamp
string produced by `new Date().toISOString()`) is modelled as epoch ms. -/
structure PromoCodeApplication where
  promoCode : PromoCode
  originalPlan : SubscriptionPlan
  discountedPlan : SubscriptionPlan
  appliedAt : Int
deriving Repr, DecidableEq

/-- Embedding of `PurchaseInfo` from src/types (dates kept as strings; they are opaque
to the orchestrator logic). -/
structure PurchaseInfo where
  transactionId : String
  productId : String
  purchaseDate : String
  expirationDate : Option String := none
  isActive : Bool
  promoCodeUsed : Option String := none
  originalPrice : Rat
  finalPrice : Rat
  currency : String
deriving Repr, DecidableEq

namespace PromoCodeService

/-- The TTL field `private cacheExpiry: number = 5 * 60 * 1000; // 5 minutes`. -/
def cacheExpiry : Int := 5 * 60 * 1000

/-- Embedding of `normalizeCode`: trim, then toUpperCase, then a global regex replace that deletes every
whitespace run,
modelled at the character level: trim drops whitespace at both ends,
`toUpperCase` upper-cases character-wise, and the `/\s+/g` replace drops
every remaining whitespace character. -/
def normalizeCode (code : String) : String :=
  String.mk
    (((((code.data.dropWhile Char.isWhitespace).reverse.dropWhile
          Char.isWhitespace).reverse).map Char.toUpper).filter
      (fun c => !c.isWhitespace))

/-- Embedding of `calculateDiscountedPrice` (PromoCodeService.ts lines 298-314): switch on
`discount.type` with `Math.max(0, ...)` clamping and a `default` arm that
returns the plan price unchanged. -/
def calculateDiscountedPrice (plan : SubscriptionPlan) (promoCode : PromoCode) : Rat :=
  let discount := promoCode.discount
  if discount.type = "percentage" then
    max 0 (plan.price * (1 - discount.value / 100))
  else if discount.type = "fixed" then
    max 0 (plan.price - discount.value)
  else if discount.type = "free_trial" then
    0
  else
    plan.price

/-- Embedding of `applyDiscountToPlan` (lines 286-296): spread the plan, overwrite `price`,
and rewrite `description` only for `free_trial` (template string
`${plan.description} - ${promoCode.discount.duration} days free trial`;
an absent `duration` renders as the string "undefined" in JS). -/
def applyDiscountToPlan (plan : SubscriptionPlan) (promoCode : PromoCode) : SubscriptionPlan :=
  let discountedPrice := calculateDiscountedPrice plan promoCode
  { plan with
    price := discountedPrice
    description :=
      if promoCode.discount.type = "free_trial" then
        plan.description ++ " - " ++
          (match promoCode.discount.duration with
           | some d => toString d
           | none => "undefined") ++ " days free trial"
      else
        plan.description }

/-- The in-memory cache `Map<string, PromoCodeValidation>`, modelled as an
insertion-ordered association list (JS `Map` iteration order). -/
abbrev Cache := List (String × PromoCodeValidation)

/-- Lookup, i.e. JS `Map.get`. -/
def cacheGet (c : Cache) (k : String) : Option PromoCodeValidation :=
  (List.find? (fun e => e.1 = k) c).map (fun e => e.2)

/-- Insertion, i.e. JS `Map.set`: replace an existing entry in place, otherwise append. -/
def cacheSet (c : Cache) (k : String) (v : PromoCodeValidation) : Cache :=
  if (List.find? (fun e => e.1 = k) c).isSome then
    List.map (fun e => if e.1 = k then (k, v) else e) c
  else
    c ++ [(k, v)]

/-- Removal, i.e. JS `Map.delete`. -/
def cacheDelete (c : Cache) (k : String) : Cache :=
  List.filter (fun e => !(e.1 = k : Bool)) c

/-- JS substring test `message.includes` applied to the one-character
needle `|`, as the cache code does. -/
def hasPipe (s : String) : Bool :=
  s.data.contains '|'

/-- A JS `>` comparison whose left operand may be NaN (modelled `none`):
`NaN > x` is `false` for every `x`. -/
def jsNumGt (a : Option Int) (b : Int) : Bool :=
  match a with
  | none => false
  | some x => x > b

/-- The exact fallback value built in the catch block of `validatePromoCode`. -/
def validationFailed : PromoCodeValidation :=
  { isValid := false
    message := "Invalid promo code"
    error := some "VALIDATION_FAILED" }

/-- Embedding of `getCachedValidation` (lines 171-183), parametrized by the semantics of
`Date.parse` (`dateParse`, `none` = NaN). The age of an entry is
`Date.now() - Date.parse(cached.message)`; when the parse is NaN the age is
NaN and the JS comparison `age > this.cacheExpiry` is false, so the entry is
kept. Returns the lookup result together with the possibly-purged cache. -/
def getCachedValidation (dateParse : String → Option Int) (c : Cache) (now : Int)
    (key : String) : Option PromoCodeValidation × Cache :=
  match cacheGet c key with
  | none => (none, c)
  | some cached =>
    let age : Option Int := (dateParse cached.message).map (fun t => now - t)
    if jsNumGt age cacheExpiry then
      (none, cacheDelete c key)
    else
      (some cached, c)

/-- Embedding of `setCachedValidation` (lines 185-192): store the validation with
`Date.now()` appended to `message` after a `|`, unless the message already
contains a `|`. -/
def setCachedValidation (c : Cache) (now : Int) (key : String)
    (validation : PromoCodeValidation) : Cache :=
  let validationWithTimestamp :=
    { validation with
      message :=
        if hasPipe validation.message then validation.message
        else validation.message ++ "|" ++ toString now }
  cacheSet c key validationWithTimestamp

/-- The hard-coded mock catalog of `getMockPromoCodes` (no filters).
ISO validity dates are their epoch-millisecond values:
`2024-01-01T00:00:00Z` = 1704067200000, `2024-12-31T23:59:59Z` =
1735689599000, `2024-06-30T23:59:59Z` = 1719791999000,
`2024-03-31T23:59:59Z` = 1711929599000. -/
def getMockPromoCodes : List PromoCode :=
  [ { id := "1", code := "SAVE20",
      description := "Save 20% on your first subscription",
      discount := { type := "percentage", value := 20 },
      maxUses := some 1000, currentUses := 342,
      validFrom := 1704067200000, validUntil := 1735689599000,
      isActive := true,
      applicablePlans := some ["monthly", "yearly"],
      restrictions := some { newCustomersOnly := some true } },
    { id := "2", code := "FREEMONTH",
      description := "Get your first month free",
      discount := { type := "free_trial", value := 30, duration := some 30 },
      maxUses := some 500, currentUses := 198,
      validFrom := 1704067200000, validUntil := 1719791999000,
      isActive := true,
      applicablePlans := some ["monthly"],
      restrictions := some { newCustomersOnly := some true } },
    { id := "3", code := "SPECIAL50",
      description := "$50 off annual subscription",
      discount := { type := "fixed", value := 50 },
      maxUses := some 200, currentUses := 67,
      validFrom := 1704067200000, validUntil := 1711929599000,
      isActive := true,
      applicablePlans := some ["yearly"] } ]

/-- The hard-coded `getMockPlans` list. -/
def getMockPlans : List SubscriptionPlan :=
  [ { id := "monthly", name := "Monthly Premium", description := "Monthly subscription",
      price := 999/100, currency := "USD", duration := "monthly", features := [] },
    { id := "yearly", name := "Annual Premium", description := "Annual subscription",
      price := 9999/100, currency := "USD", duration := "yearly", features := [] } ]

/-- Embedding of `mockValidate` (lines 219-284) with the catalog and plan lists as
parameters (the source inlines `this.getMockPromoCodes()` /
`this.getMockPlans()`; the decision logic is independent of the concrete
lists). Checks, in source order: found & active, validity window, usage
limit (`maxUses && currentUses >= maxUses`, JS truthiness: `0` and
`undefined` skip the check), plan allow-list, then prices the plan. -/
def mockValidateWith (catalog : List PromoCode) (plans : List SubscriptionPlan)
    (now : Int) (code : String) (planId : Option String) : PromoCodeValidation :=
  match List.find? (fun pc => pc.code = code) catalog with
  | none =>
    { isValid := false, message := "Invalid promo code", error := some "CODE_NOT_FOUND" }
  | some promoCode =>
    if !promoCode.isActive then
      { isValid := false, message := "Invalid promo code", error := some "CODE_NOT_FOUND" }
    else if now < promoCode.validFrom || now > promoCode.validUntil then
      { isValid := false, message := "Promo code has expired", error := some "CODE_EXPIRED" }
    else if (match promoCode.maxUses with
             | some m => !(m = 0 : Bool) && promoCode.currentUses ≥ m
             | none => false) then
      { isValid := false, message := "Promo code has been fully redeemed",
        error := some "CODE_EXHAUSTED" }
    else if (match promoCode.applicablePlans, planId with
             | some aps, some pid => !aps.contains pid
             | _, _ => false) then
      { isValid := false, message := "Promo code is not applicable to this plan",
        error := some "PLAN_NOT_APPLICABLE" }
    else
      let discountedPrice : Option Rat :=
        planId.bind (fun pid =>
          (List.find? (fun p => p.id = pid) plans).map
            (fun plan => calculateDiscountedPrice plan promoCode))
      { isValid := true, promoCode := some promoCode,
        discountedPrice := discountedPrice,
        message := "Promo code applied successfully" }

/-- Specialization of `mockValidateWith` to the hard-coded mock catalog and plans, i.e. `mockValidate` itself. -/
def mockValidate (now : Int) (code : String) (planId : Option String) :
    PromoCodeValidation :=
  mockValidateWith getMockPromoCodes getMockPlans now code planId

/-- The composite cache key `` `${code}_${planId}_${userId}` `` — built from
the RAW `code` argument; an `undefined` optional renders as the string
"undefined" inside a JS template literal. -/
def cacheKey (code : String) (planId userId : Option String) : String :=
  code ++ "_" ++ planId.getD "undefined" ++ "_" ++ userId.getD "undefined"

/-- Result of one `validatePromoCode` call: the returned validation, the
cache afterwards, and whether the catalog (backend fetch or mock
validation) was actually consulted. -/
structure ValidateResult where
  validation : PromoCodeValidation
  cache : Cache
  queriedCatalog : Bool
deriving Repr, DecidableEq

/-- Embedding of `validatePromoCode` (lines 32-67), parametrized by `dateParse` (the
`Date.parse` semantics used by the cache lookup) and by the backend:
`none` models an unset `backendUrl` (mock path); `some (.ok v)` a backend
answer; `some (.error e)` a thrown backend failure, which lands in the
catch block and is recovered into `validationFailed`. The cache is
consulted FIRST, keyed by the raw code; normalization happens afterwards
and feeds only the backend/mock lookup. Every non-throwing outcome is
written back to the cache before returning. -/
def validatePromoCode (dateParse : String → Option Int) (c : Cache) (now : Int)
    (backend : Option (Except String PromoCodeValidation))
    (code : String) (planId userId : Option String) : ValidateResult :=
  let key := cacheKey code planId userId
  match getCachedValidation dateParse c now key with
  | (some cached, c1) => { validation := cached, cache := c1, queriedCatalog := false }
  | (none, c1) =>
    let normalizedCode := normalizeCode code
    match backend with
    | some (Except.ok validation) =>
      { validation := validation
        cache := setCachedValidation c1 now key validation
        queriedCatalog := true }
    | some (Except.error _) =>
      { validation := validationFailed, cache := c1, queriedCatalog := true }
    | none =>
      let validation := mockValidate now normalizedCode planId
      { validation := validation
        cache := setCachedValidation c1 now key validation
        queriedCatalog := true }

/-- Embedding of `redeemPromoCode` (lines 127-143): with a backend configured, a failed
`redeemWithBackend` is caught and re-thrown as the `PaywallError`
`REDEEM_FAILED` with message "Failed to redeem promo code"; the mock path
never fails. `backendConfigured = false` (no `backendUrl`) always
succeeds. -/
def redeemPromoCode (backendConfigured : Bool)
    (backendResult : Except String Unit) : Except String Unit :=
  if backendConfigured then
    match backendResult with
    | Except.error _ => Except.error "Failed to redeem promo code"
    | Except.ok _ => Except.ok ()
  else
    Except.ok ()

end PromoCodeService

namespace PaywallProvider

open PromoCodeService

/-- The `purchaseState` union of the four literals `idle`, `processing`,
`success` and `error`. -/
inductive PurchasePhase where
  | idle
  | processing
  | success
  | error
deriving Repr, DecidableEq

/-- Embedding of `PaywallState` from src/types. -/
structure PaywallState where
  isVisible : Bool
  selectedPlan : Option SubscriptionPlan := none
  isLoading : Bool
  error : Option String := none
  purchaseState : PurchasePhase
deriving Repr, DecidableEq

/-- Embedding of `PromoCodeState` from src/types. -/
structure PromoCodeState where
  code : String
  validation : Option PromoCodeValidation := none
  isApplying : Bool
  appliedPromo : Option PromoCodeApplication := none
deriving Repr, DecidableEq

/-- The constant `initialPaywallState`. -/
def initialPaywallState : PaywallState :=
  { isVisible := false, isLoading := false, purchaseState := PurchasePhase.idle }

/-- The constant `initialPromoCodeState`. -/
def initialPromoCodeState : PromoCodeState :=
  { code := "", isApplying := false }

/-- The `PaywallAction` tagged union. -/
inductive PaywallAction where
  | showPaywall
  | hidePaywall
  | selectPlan (payload : SubscriptionPlan)
  | setLoading (payload : Bool)
  | setError (payload : Option String)
  | setPurchaseState (payload : PurchasePhase)
deriving Repr

/-- The `PromoCodeAction` tagged union. -/
inductive PromoCodeAction where
  | setCode (payload : String)
  | setValidation (payload : Option PromoCodeValidation)
  | setApplying (payload : Bool)
  | setAppliedPromo (payload : Option PromoCodeApplication)
  | clearPromoCode
deriving Repr

/-- Embedding of `paywallReducer` (part_000 lines 378-395). -/
def paywallReducer (state : PaywallState) (action : PaywallAction) : PaywallState :=
  match action with
  | PaywallAction.showPaywall => { state with isVisible := true, error := none }
  | PaywallAction.hidePaywall =>
    { state with isVisible := false, selectedPlan := none, error := none }
  | PaywallAction.selectPlan p => { state with selectedPlan := some p }
  | PaywallAction.setLoading b => { state with isLoading := b }
  | PaywallAction.setError e => { state with error := e }
  | PaywallAction.setPurchaseState ps => { state with purchaseState := ps }

/-- Embedding of `promoCodeReducer` (part_000 lines 397-412). `CLEAR_PROMO_CODE`
resets `code`, `validation` and `appliedPromo` together, leaving
`isApplying` untouched. -/
def promoCodeReducer (state : PromoCodeState) (action : PromoCodeAction) : PromoCodeState :=
  match action with
  | PromoCodeAction.setCode c => { state with code := c }
  | PromoCodeAction.setValidation v => { state with validation := v }
  | PromoCodeAction.setApplying b => { state with isApplying := b }
  | PromoCodeAction.setAppliedPromo a => { state with appliedPromo := a }
  | PromoCodeAction.clearPromoCode =>
    { state with code := "", validation := none, appliedPromo := none }

/-- Observable outcome of one `purchasePlan` call: both final states, whether
the `purchasePlan` method of the billing collaborator was invoked, and the event
handlers fired in order. -/
structure PurchaseOutcome where
  pay : PaywallState
  promo : PromoCodeState
  billingInvoked : Bool
  events : List String
deriving Repr, DecidableEq

/-- Embedding of `purchasePlan` (part_000 lines 511-554), with the two external
collaborators as parameters: `billing` is the awaited
`paywallService.purchasePlan` (an `Except.error` models a thrown failure)
and `redeem` the awaited `promoCodeService.redeemPromoCode`. The inner
`refreshSubscriptionStatus` catches its own errors and touches neither
reducer state, so it leaves no trace here. Any throw after the `processing`
dispatch — including a redemption failure that occurs AFTER `success` was
dispatched and `onPurchaseSuccess` fired — lands in the shared catch block,
which dispatches `SET_PURCHASE_STATE error` and `SET_ERROR`; the finally
block clears `isLoading`. The deferred `setTimeout` that later returns the
state to `idle` after 2s is outside the synchronous effects of the call and is
not modelled. -/
def purchasePlan (pst : PaywallState) (pcs : PromoCodeState)
    (billing : Except String PurchaseInfo) (redeem : Except String Unit) :
    PurchaseOutcome :=
  match pst.selectedPlan with
  | none =>
    { pay := paywallReducer pst (PaywallAction.setError (some "No plan selected"))
      promo := pcs, billingInvoked := false, events := [] }
  | some _plan =>
    let pst1 := paywallReducer pst (PaywallAction.setLoading true)
    let pst2 := paywallReducer pst1 (PaywallAction.setPurchaseState PurchasePhase.processing)
    let promoCode := pcs.appliedPromo.map (fun a => a.promoCode.code)
    match billing with
    | Except.error msg =>
      let pstE := paywallReducer pst2 (PaywallAction.setPurchaseState PurchasePhase.error)
      let pstE := paywallReducer pstE (PaywallAction.setError (some msg))
      { pay := paywallReducer pstE (PaywallAction.setLoading false)
        promo := pcs, billingInvoked := true
        events := ["onPurchaseStart", "onPurchaseError"] }
    | Except.ok _info =>
      let pst3 := paywallReducer pst2 (PaywallAction.setPurchaseState PurchasePhase.success)
      match promoCode with
      | none =>
        { pay := paywallReducer pst3 (PaywallAction.setLoading false)
          promo := pcs, billingInvoked := true
          events := ["onPurchaseStart", "onPurchaseSuccess"] }
      | some _c =>
        match redeem with
        | Except.error emsg =>
          let pstE := paywallReducer pst3 (PaywallAction.setPurchaseState PurchasePhase.error)
          let pstE := paywallReducer pstE (PaywallAction.setError (some emsg))
          { pay := paywallReducer pstE (PaywallAction.setLoading false)
            promo := pcs, billingInvoked := true
            events := ["onPurchaseStart", "onPurchaseSuccess", "onPurchaseError"] }
        | Except.ok _ =>
          { pay := paywallReducer pst3 (PaywallAction.setLoading false)
            promo := promoCodeReducer pcs PromoCodeAction.clearPromoCode
            billingInvoked := true
            events := ["onPurchaseStart", "onPurchaseSuccess"] }

/-- The provider-level `applyPromoCode` (part_000 lines 608-633):
`application` is the awaited `promoCodeService.applyPromoCode` outcome
(an `Except.error` models the thrown `INVALID_PROMO_CODE` / validation
failure, which the catch swallows after firing `onPromoCodeError`).
With no plan selected it dispatches the "Select a plan first" error and
performs no service call; on success it replaces `selectedPlan` with the
discounted plan and records the application. -/
def applyPromoCode (pst : PaywallState) (pcs : PromoCodeState)
    (application : Except String PromoCodeApplication) :
    PaywallState × PromoCodeState :=
  match pst.selectedPlan with
  | none =>
    (paywallReducer pst (PaywallAction.setError (some "Select a plan first")), pcs)
  | some _ =>
    let pcs1 := promoCodeReducer pcs (PromoCodeAction.setApplying true)
    match application with
    | Except.ok app =>
      let pst1 := paywallReducer pst (PaywallAction.selectPlan app.discountedPlan)
      let pcs2 := promoCodeReducer pcs1 (PromoCodeAction.setAppliedPromo (some app))
      (pst1, promoCodeReducer pcs2 (PromoCodeAction.setApplying false))
    | Except.error _ =>
      (pst, promoCodeReducer pcs1 (PromoCodeAction.setApplying false))

/-- Embedding of `removePromoCode` (part_000 lines 635-645): dispatch `CLEAR_PROMO_CODE`,
then — reading the pre-dispatch state captured by the closure — restore the original plan
only when BOTH `paywallState.selectedPlan` and `promoCodeState.appliedPromo`
are set. -/
def removePromoCode (pst : PaywallState) (pcs : PromoCodeState) :
    PaywallState × PromoCodeState :=
  let pcs1 := promoCodeReducer pcs PromoCodeAction.clearPromoCode
  match pst.selectedPlan, pcs.appliedPromo with
  | some _, some app =>
    (paywallReducer pst (PaywallAction.selectPlan app.originalPlan), pcs1)
  | _, _ => (pst, pcs1)

end PaywallProvider

/-! Concrete sample values used by witnesses, counterexamples and
code-bug evaluations. -/

/-- The mock monthly plan (also the head of `getMockPlans`). -/
def monthlyPlan : SubscriptionPlan :=
  { id := "monthly", name := "Monthly Premium", description := "Monthly subscription",
    price := 999/100, currency := "USD", duration := "monthly", features := [] }

/-- The SAVE20 catalog entry (head of `getMockPromoCodes`). -/
def save20 : PromoCode :=
  { id := "1", code := "SAVE20",
    description := "Save 20% on your first subscription",
    discount := { type := "percentage", value := 20 },
    maxUses := some 1000, currentUses := 342,
    validFrom := 1704067200000, validUntil := 1735689599000,
    isActive := true,
    applicablePlans := some ["monthly", "yearly"],
    restrictions := some { newCustomersOnly := some true } }

/-- A 150%-off promo code, exercising the over-100% clamping edge case. -/
def promo150 : PromoCode :=
  { id := "x150", code := "MEGA150",
    description := "150% off",
    discount := { type := "percentage", value := 150 },
    currentUses := 0, validFrom := 0, validUntil := 1735689599000,
    isActive := true }

/-- An active promo code that is both exhausted (`currentUses = maxUses = 1`)
and outside its validity window at the times used below. -/
def promoExhausted : PromoCode :=
  { id := "xE", code := "GONE",
    description := "fully redeemed",
    discount := { type := "fixed", value := 5 },
    maxUses := some 1, currentUses := 1,
    validFrom := 1000, validUntil := 2000,
    isActive := true }

/-- A successful billing result. -/
def samplePurchase : PurchaseInfo :=
  { transactionId := "txn_1", productId := "premium_monthly",
    purchaseDate := "2024-02-01T00:00:00Z", isActive := true,
    promoCodeUsed := some "SAVE20",
    originalPrice := 999/100, finalPrice := 999/125, currency := "USD" }

/-- The application record produced by applying SAVE20 to the monthly plan. -/
def save20Application : PromoCodeApplication :=
  { promoCode := save20, originalPlan := monthlyPlan,
    discountedPlan := PromoCodeService.applyDiscountToPlan monthlyPlan save20,
    appliedAt := 1706000000000 }

/-- The paywall state right after SAVE20 was applied to the selected
monthly plan: `selectedPlan` is the discounted plan. -/
def appliedPaywallState : PaywallProvider.PaywallState :=
  { isVisible := true
    selectedPlan := some (PromoCodeService.applyDiscountToPlan monthlyPlan save20)
    isLoading := false
    purchaseState := PaywallProvider.PurchasePhase.idle }

/-- The promo-code state right after SAVE20 was applied: the application
record is live. -/
def appliedPromoState : PaywallProvider.PromoCodeState :=
  { code := "SAVE20", isApplying := false,
    appliedPromo := some save20Application }

/-- A paywall state with a purchase currently `processing` and a plan
selected. -/
def processingPaywallState : PaywallProvider.PaywallState :=
  { isVisible := true, selectedPlan := some monthlyPlan, isLoading := true,
    purchaseState := PaywallProvider.PurchasePhase.processing }

/-- The state reached from `appliedPaywallState` by `HIDE_PAYWALL`
(`hidePaywall` clears `selectedPlan` but dispatches no promo action). -/
def hiddenPaywallState : PaywallProvider.PaywallState :=
  PaywallProvider.paywallReducer appliedPaywallState
    PaywallProvider.PaywallAction.hidePaywall

/-! # Theorems -/

open PromoCodeService PaywallProvider

/-- C2: for every plan with non-negative price and every discount rule,
`calculateDiscountedPrice` yields `max 0 (p * (1 - value/100))` for
`percentage` (and exactly `0` once `value > 100`), `max 0 (p - value)` for
`fixed`, `0` for `free_trial`, and is non-negative in every case. -/
theorem calculateDiscountedPrice_spec
    (plan : SubscriptionPlan) (promoCode : PromoCode)
    (hp : 0 ≤ plan.price) :
    (promoCode.discount.type = "percentage" →
      calculateDiscountedPrice plan promoCode
        = max 0 (plan.price * (1 - promoCode.discount.value / 100)) ∧
      (100 < promoCode.discount.value →
        calculateDiscountedPrice plan promoCode = 0)) ∧
    (promoCode.discount.type = "fixed" →
      calculateDiscountedPrice plan promoCode
        = max 0 (plan.price - promoCode.discount.value)) ∧
    (promoCode.discount.type = "free_trial" →
      calculateDiscountedPrice plan promoCode = 0) ∧
    0 ≤ calculateDiscountedPrice plan promoCode := by
  refine ⟨fun h => ⟨by simp [calculateDiscountedPrice, h], fun hv => ?_⟩,
          fun h => by simp [calculateDiscountedPrice, h],
          fun h => by simp [calculateDiscountedPrice, h],
          ?_⟩
  · simp only [calculateDiscountedPrice, h, if_pos]
    have hfac : plan.price * (1 - promoCode.discount.value / 100) ≤ 0 := by
      have h1 : (0:Rat) ≤ promoCode.discount.value / 100 - 1 := by linarith
      nlinarith [mul_nonneg hp h1]
    exact max_eq_left hfac
  · unfold calculateDiscountedPrice
    dsimp only
    split_ifs <;> simp [le_max_left, hp]

/-- C2 witness: at the concrete monthly plan and the 150%-off code, the
price is clamped to exactly 0 (hence non-negative). -/
theorem calculateDiscountedPrice_spec_witness :
    calculateDiscountedPrice monthlyPlan promo150 = 0 ∧
    0 ≤ calculateDiscountedPrice monthlyPlan promo150 := by
  have h := calculateDiscountedPrice_spec monthlyPlan promo150
    (by norm_num [monthlyPlan])
  exact ⟨(h.1 rfl).2 (by norm_num [promo150]), h.2.2.2⟩

/-- C10: the derived discounted plan preserves every field of the original
plan except `price` (which becomes the calculated discounted price), and
except `description`, which is unchanged whenever the discount kind is not
`free_trial`. The original plan value is a pure input and is never
mutated. -/
theorem applyDiscountToPlan_frame (plan : SubscriptionPlan) (promoCode : PromoCode) :
    (applyDiscountToPlan plan promoCode).id = plan.id ∧
    (applyDiscountToPlan plan promoCode).name = plan.name ∧
    (applyDiscountToPlan plan promoCode).currency = plan.currency ∧
    (applyDiscountToPlan plan promoCode).duration = plan.duration ∧
    (applyDiscountToPlan plan promoCode).features = plan.features ∧
    (applyDiscountToPlan plan promoCode).originalPrice = plan.originalPrice ∧
    (applyDiscountToPlan plan promoCode).discountPercentage = plan.discountPercentage ∧
    (applyDiscountToPlan plan promoCode).isPopular = plan.isPopular ∧
    (applyDiscountToPlan plan promoCode).productId = plan.productId ∧
    (applyDiscountToPlan plan promoCode).price
      = calculateDiscountedPrice plan promoCode ∧
    (promoCode.discount.type ≠ "free_trial" →
      (applyDiscountToPlan plan promoCode).description = plan.description) := by
  refine ⟨rfl, rfl, rfl, rfl, rfl, rfl, rfl, rfl, rfl, rfl, fun h => ?_⟩
  simp [applyDiscountToPlan, h]

/-- C10 witness: at the monthly plan and SAVE20 (a `percentage` discount),
all frame fields — including the description — are preserved and the price
is the calculated one. -/
theorem applyDiscountToPlan_frame_witness :
    (applyDiscountToPlan monthlyPlan save20).description = monthlyPlan.description ∧
    (applyDiscountToPlan monthlyPlan save20).id = monthlyPlan.id ∧
    (applyDiscountToPlan monthlyPlan save20).price
      = calculateDiscountedPrice monthlyPlan save20 := by
  have h := applyDiscountToPlan_frame monthlyPlan save20
  exact ⟨h.2.2.2.2.2.2.2.2.2.2 (by decide), h.1, h.2.2.2.2.2.2.2.2.2.1⟩

/-- C3 counterexample: `promoExhausted` is found, active, and fully
redeemed (`currentUses = maxUses = 1`), yet at an instant outside its
validity window `mockValidate` reports `CODE_EXPIRED`, not
`CODE_EXHAUSTED` — the date check runs before the usage check. -/
theorem exhausted_code_outside_window_reports_expired :
    promoExhausted.isActive = true ∧
    promoExhausted.maxUses = some 1 ∧
    promoExhausted.currentUses = 1 ∧
    (mockValidateWith [promoExhausted] [] 5000 "GONE" none).error
      = some "CODE_EXPIRED" ∧
    (mockValidateWith [promoExhausted] [] 5000 "GONE" none).error
      ≠ some "CODE_EXHAUSTED" := by
  refine ⟨rfl, rfl, rfl, ?_, ?_⟩ <;> decide

/-- C3 amended: a found, active code with `maxUses` set non-zero and
`currentUses ≥ maxUses` always yields `isValid = false`, but the error code
depends on the validity window: `CODE_EXHAUSTED` inside
`[validFrom, validUntil]` and `CODE_EXPIRED` outside, because the date
check precedes the usage check. -/
theorem exhausted_code_error_depends_on_window
    (catalog : List PromoCode) (plans : List SubscriptionPlan)
    (now : Int) (code : String) (planId : Option String)
    (pc : PromoCode) (m : Nat)
    (hfind : List.find? (fun p => p.code = code) catalog = some pc)
    (hact : pc.isActive = true)
    (hmax : pc.maxUses = some m) (hm0 : m ≠ 0)
    (huses : m ≤ pc.currentUses) :
    (mockValidateWith catalog plans now code planId).isValid = false ∧
    (pc.validFrom ≤ now ∧ now ≤ pc.validUntil →
      (mockValidateWith catalog plans now code planId).error
        = some "CODE_EXHAUSTED") ∧
    (now < pc.validFrom ∨ pc.validUntil < now →
      (mockValidateWith catalog plans now code planId).error
        = some "CODE_EXPIRED") := by
  have hcond : (match pc.maxUses with
      | some m' => !(m' = 0 : Bool) && pc.currentUses ≥ m'
      | none => false) = true := by
    rw [hmax]
    simp [hm0, huses]
  refine ⟨?_, fun hw => ?_, fun hw => ?_⟩
  · by_cases hlt : now < pc.validFrom
    · simp [mockValidateWith, hfind, hact, hlt]
    · by_cases hgt : now > pc.validUntil
      · simp [mockValidateWith, hfind, hact, hgt]
      · simp [mockValidateWith, hfind, hact, hlt, hgt, hcond]
  · have h1 : ¬ now < pc.validFrom := not_lt.mpr hw.1
    have h2 : ¬ now > pc.validUntil := not_lt.mpr hw.2
    simp [mockValidateWith, hfind, hact, h1, h2, hcond]
  · rcases hw with hw | hw
    · simp [mockValidateWith, hfind, hact, hw]
    · simp [mockValidateWith, hfind, hact, hw]

/-- C3 witness: at `now = 1500` (inside the window of `promoExhausted`) the
exhausted code yields `isValid = false` with `CODE_EXHAUSTED`. -/
theorem exhausted_code_error_depends_on_window_witness :
    (mockValidateWith [promoExhausted] [] 1500 "GONE" none).isValid = false ∧
    (mockValidateWith [promoExhausted] [] 1500 "GONE" none).error
      = some "CODE_EXHAUSTED" := by
  have h := exhausted_code_error_depends_on_window [promoExhausted] [] 1500
    "GONE" none promoExhausted 1 (by decide) rfl rfl (by decide) (by decide)
  exact ⟨h.1, h.2.1 ⟨by decide, by decide⟩⟩

/-! Cache helper lemmas. -/

/-- Replacing the entry for `k` in place makes a subsequent lookup of `k`
return the new value, provided some entry for `k` existed. -/
theorem cacheGet_map_replace (c : Cache) (k : String) (v : PromoCodeValidation)
    (h : (List.find? (fun e => e.1 = k) c).isSome) :
    cacheGet (List.map (fun e => if e.1 = k then (k, v) else e) c) k = some v := by
  induction c with
  | nil => simp [List.find?] at h
  | cons e t ih =>
    by_cases he : e.1 = k
    · simp [cacheGet, List.find?, he]
    · have h' : (List.find? (fun e => e.1 = k) t).isSome := by
        simpa [List.find?_cons, he] using h
      simpa [cacheGet, List.find?_cons, he] using ih h'

/-- Lookup after `cacheSet` of the same key yields the stored value. -/
theorem cacheGet_cacheSet_self (c : Cache) (k : String) (v : PromoCodeValidation) :
    cacheGet (cacheSet c k v) k = some v := by
  unfold cacheSet
  by_cases h : (List.find? (fun e => e.1 = k) c).isSome
  · simpa [h] using cacheGet_map_replace c k v h
  · have hn : List.find? (fun e => e.1 = k) c = none := by
      cases hf : List.find? (fun e => e.1 = k) c with
      | none => rfl
      | some x => simp [hf] at h
    simp [h, cacheGet, List.find?_append, hn, List.find?]

/-- Every message stored by `setCachedValidation` contains a `|` — either
the original message already did, or the `|timestamp` suffix adds one. -/
theorem hasPipe_timestamped (m t : String) :
    hasPipe (if hasPipe m then m else m ++ "|" ++ t) = true := by
  by_cases h : hasPipe m
  · simp [h]
  · simp only [h, Bool.false_eq_true, if_false]
    simp [hasPipe, String.data_append]

/-- Lookup after `setCachedValidation` of the same key yields the
timestamped copy of the stored validation. -/
theorem cacheGet_setCachedValidation_self (c : Cache) (now : Int) (k : String)
    (v : PromoCodeValidation) :
    cacheGet (setCachedValidation c now k v) k
      = some { v with message := if hasPipe v.message then v.message
                                 else v.message ++ "|" ++ toString now } := by
  unfold setCachedValidation
  exact cacheGet_cacheSet_self c k _

/-- A lookup miss leaves the cache untouched. -/
theorem getCachedValidation_miss (dateParse : String → Option Int) (c : Cache)
    (now : Int) (key : String) (h : cacheGet c key = none) :
    getCachedValidation dateParse c now key = (none, c) := by
  simp [getCachedValidation, h]

/-- A lookup hit whose message `Date.parse`s to NaN is returned as-is: the
age is NaN, `NaN > cacheExpiry` is false, and the entry survives. -/
theorem getCachedValidation_hit_nan (dateParse : String → Option Int) (c : Cache)
    (now : Int) (key : String) (v : PromoCodeValidation)
    (h : cacheGet c key = some v) (hdp : dateParse v.message = none) :
    getCachedValidation dateParse c now key = (some v, c) := by
  simp [getCachedValidation, h, hdp, jsNumGt]

/-- C1 (code-bug evaluation): validating SAVE20 at `t0 = 1706000000000`
caches the result; a second `validate` of the same key TEN MINUTES later
(double the 5-minute TTL) still returns the cached entry, performs no
catalog query, and purges nothing. The `dateParse` argument `fun _ => none`
is JavaScript `Date.parse` restricted to the strings this cache actually
stores: every stored message is a human-readable sentence with
`|<timestamp>` appended (e.g. "Promo code applied successfully|1706000000000"),
and `Date.parse` of such a string is NaN, so the `age > cacheExpiry` purge
branch is unreachable. -/
theorem stale_cache_entry_survives_ttl :
    (validatePromoCode (fun _ => none) [] 1706000000000 none
        "SAVE20" (some "monthly") none).queriedCatalog = true ∧
    (validatePromoCode (fun _ => none)
        (validatePromoCode (fun _ => none) [] 1706000000000 none
          "SAVE20" (some "monthly") none).cache
        (1706000000000 + 600000) none "SAVE20" (some "monthly") none).queriedCatalog
      = false ∧
    (validatePromoCode (fun _ => none)
        (validatePromoCode (fun _ => none) [] 1706000000000 none
          "SAVE20" (some "monthly") none).cache
        (1706000000000 + 600000) none "SAVE20" (some "monthly") none).validation.message
      = "Promo code applied successfully|1706000000000" ∧
    (cacheGet
        (validatePromoCode (fun _ => none)
          (validatePromoCode (fun _ => none) [] 1706000000000 none
            "SAVE20" (some "monthly") none).cache
          (1706000000000 + 600000) none "SAVE20" (some "monthly") none).cache
        (cacheKey "SAVE20" (some "monthly") none)).isSome = true := by
  refine ⟨rfl, ?_, ?_, ?_⟩ <;> decide

/-- C6 counterexample: two `validate` calls with the same composite key one
second apart (well within the 5-minute TTL). The second call makes no
catalog request, but the two returned values are NOT bit-identical: the
first call returns the freshly computed validation, while the cache write
appended `|<insertion timestamp>` to the `message` of the stored copy, and the
second call returns that mangled copy. -/
theorem second_validate_not_bit_identical :
    (validatePromoCode (fun _ => none) [] 1706000000000 none
        "SAVE20" (some "monthly") none).validation.message
      = "Promo code applied successfully" ∧
    (validatePromoCode (fun _ => none)
        (validatePromoCode (fun _ => none) [] 1706000000000 none
          "SAVE20" (some "monthly") none).cache
        1706000001000 none "SAVE20" (some "monthly") none).queriedCatalog = false ∧
    (validatePromoCode (fun _ => none)
        (validatePromoCode (fun _ => none) [] 1706000000000 none
          "SAVE20" (some "monthly") none).cache
        1706000001000 none "SAVE20" (some "monthly") none).validation.message
      = "Promo code applied successfully|1706000000000" ∧
    (validatePromoCode (fun _ => none)
        (validatePromoCode (fun _ => none) [] 1706000000000 none
          "SAVE20" (some "monthly") none).cache
        1706000001000 none "SAVE20" (some "monthly") none).validation.message
      ≠ (validatePromoCode (fun _ => none) [] 1706000000000 none
          "SAVE20" (some "monthly") none).validation.message := by
  refine ⟨?_, ?_, ?_, ?_⟩ <;> decide

/-- C6 amended: for any two mock-path `validate` calls with the same raw
composite key, where the first is a cache miss, the second call makes no
catalog request and returns the cached copy — equal to the result of the
first call except that its `message` carries the timestamp of the first
call as a `|<timestamp>`
suffix (added unless the message already contained a `|`). `dateParse` is
any `Date.parse` semantics that yields NaN on strings containing `|`,
which is true of JavaScript and covers every message this cache stores. -/
theorem cached_validate_same_key_no_requery
    (dateParse : String → Option Int)
    (hdp : ∀ s, hasPipe s = true → dateParse s = none)
    (c : Cache) (now1 now2 : Int) (code : String) (planId userId : Option String)
    (hmiss : cacheGet c (cacheKey code planId userId) = none) :
    (validatePromoCode dateParse
        (validatePromoCode dateParse c now1 none code planId userId).cache
        now2 none code planId userId).queriedCatalog = false ∧
    (validatePromoCode dateParse
        (validatePromoCode dateParse c now1 none code planId userId).cache
        now2 none code planId userId).validation
      = { (validatePromoCode dateParse c now1 none code planId userId).validation with
          message :=
            if hasPipe (validatePromoCode dateParse c now1 none
                code planId userId).validation.message then
              (validatePromoCode dateParse c now1 none code planId userId).validation.message
            else
              (validatePromoCode dateParse c now1 none
                code planId userId).validation.message ++ "|" ++ toString now1 } ∧
    (validatePromoCode dateParse
        (validatePromoCode dateParse c now1 none code planId userId).cache
        now2 none code planId userId).cache
      = (validatePromoCode dateParse c now1 none code planId userId).cache := by
  have h1 : validatePromoCode dateParse c now1 none code planId userId
      = { validation := mockValidate now1 (normalizeCode code) planId
          cache := setCachedValidation c now1 (cacheKey code planId userId)
                     (mockValidate now1 (normalizeCode code) planId)
          queriedCatalog := true } := by
    rw [validatePromoCode, getCachedValidation_miss dateParse c now1 _ hmiss]
  rw [h1]
  have hstored := cacheGet_setCachedValidation_self c now1
    (cacheKey code planId userId) (mockValidate now1 (normalizeCode code) planId)
  have hpipe : hasPipe ({ mockValidate now1 (normalizeCode code) planId with
      message :=
        if hasPipe (mockValidate now1 (normalizeCode code) planId).message then
          (mockValidate now1 (normalizeCode code) planId).message
        else
          (mockValidate now1 (normalizeCode code) planId).message
            ++ "|" ++ toString now1 } : PromoCodeValidation).message = true := by
    exact hasPipe_timestamped _ _
  have h2 := getCachedValidation_hit_nan dateParse
    (setCachedValidation c now1 (cacheKey code planId userId)
      (mockValidate now1 (normalizeCode code) planId))
    now2 (cacheKey code planId userId) _ hstored (hdp _ hpipe)
  rw [validatePromoCode, h2]
  exact ⟨rfl, rfl, rfl⟩

/-- C6 witness: instantiated at the SAVE20 call from the counterexample,
with `dateParse = fun _ => none` (JS `Date.parse` on the message strings
this cache stores): the second call makes no catalog request and the cache is
unchanged. -/
theorem cached_validate_same_key_no_requery_witness :
    (validatePromoCode (fun _ => none)
        (validatePromoCode (fun _ => none) [] 1706000000000 none
          "SAVE20" (some "monthly") none).cache
        1706000001000 none "SAVE20" (some "monthly") none).queriedCatalog = false ∧
    (validatePromoCode (fun _ => none)
        (validatePromoCode (fun _ => none) [] 1706000000000 none
          "SAVE20" (some "monthly") none).cache
        1706000001000 none "SAVE20" (some "monthly") none).cache
      = (validatePromoCode (fun _ => none) [] 1706000000000 none
          "SAVE20" (some "monthly") none).cache := by
  have h := cached_validate_same_key_no_requery (fun _ => none)
    (fun _ _ => rfl) [] 1706000000000 1706000001000
    "SAVE20" (some "monthly") none rfl
  exact ⟨h.1, h.2.2⟩

/-- C7 counterexample: the raw codes " SAVE20 " and "SAVE20" canonicalize
to the same string, yet their composite cache keys differ, and after the
first call cached its result a second call with the other spelling still
queries the catalog — the cache is consulted BEFORE normalization, keyed
by the raw code. -/
theorem canonically_equal_codes_use_distinct_cache_entries :
    normalizeCode " SAVE20 " = normalizeCode "SAVE20" ∧
    cacheKey " SAVE20 " (some "monthly") none
      ≠ cacheKey "SAVE20" (some "monthly") none ∧
    (validatePromoCode (fun _ => none)
        (validatePromoCode (fun _ => none) [] 1706000000000 none
          " SAVE20 " (some "monthly") none).cache
        1706000001000 none "SAVE20" (some "monthly") none).queriedCatalog
      = true := by
  refine ⟨?_, ?_, ?_⟩ <;> decide

/-- C7 amended: `validate` consults the cache with a key built from the
raw, un-normalized code; normalization happens only afterwards and feeds
the catalog lookup. Hence two calls whose codes canonicalize to the same
string but whose raw keys differ do NOT hit the same cache entry: starting
from an empty cache, the second call re-queries the catalog (with the
shared canonical code). -/
theorem validate_cache_key_uses_raw_code
    (dateParse : String → Option Int) (now1 now2 : Int) (c1 c2 : String)
    (planId userId : Option String)
    (hnorm : normalizeCode c1 = normalizeCode c2)
    (hkey : cacheKey c1 planId userId ≠ cacheKey c2 planId userId) :
    (validatePromoCode dateParse
        (validatePromoCode dateParse [] now1 none c1 planId userId).cache
        now2 none c2 planId userId).queriedCatalog = true ∧
    (validatePromoCode dateParse
        (validatePromoCode dateParse [] now1 none c1 planId userId).cache
        now2 none c2 planId userId).validation
      = mockValidate now2 (normalizeCode c1) planId := by
  have h1 : validatePromoCode dateParse [] now1 none c1 planId userId
      = { validation := mockValidate now1 (normalizeCode c1) planId
          cache := setCachedValidation [] now1 (cacheKey c1 planId userId)
                     (mockValidate now1 (normalizeCode c1) planId)
          queriedCatalog := true } := by
    rw [validatePromoCode, getCachedValidation_miss dateParse [] now1 _ rfl]
  rw [h1]
  have hm2 : cacheGet
      (setCachedValidation [] now1 (cacheKey c1 planId userId)
        (mockValidate now1 (normalizeCode c1) planId))
      (cacheKey c2 planId userId) = none := by
    simp [setCachedValidation, cacheSet, cacheGet, List.find?, hkey]
  rw [validatePromoCode, getCachedValidation_miss dateParse _ now2 _ hm2]
  exact ⟨rfl, by rw [hnorm]⟩

/-- C7 witness: instantiated at the raw codes " SAVE20 " and "SAVE20"
(canonically equal, distinct raw keys): the second call queries the
catalog despite the cached result of the first call. -/
theorem validate_cache_key_uses_raw_code_witness :
    (validatePromoCode (fun _ => none)
        (validatePromoCode (fun _ => none) [] 1706000000000 none
          " SAVE20 " (some "monthly") none).cache
        1706000001000 none "SAVE20" (some "monthly") none).queriedCatalog = true ∧
    normalizeCode " SAVE20 " = normalizeCode "SAVE20" := by
  exact ⟨(validate_cache_key_uses_raw_code (fun _ => none)
      1706000000000 1706000001000 " SAVE20 " "SAVE20" (some "monthly") none
      (by decide) (by decide)).1, by decide⟩

/-- C8: whenever the backend is configured and its validation call throws,
and the thrown path is actually reached (i.e. the call was not answered
from the cache), `validatePromoCode` returns the typed recovery value
`\x7b isValid := false, message := "Invalid promo code", error := some
"VALIDATION_FAILED" \x7d` instead of propagating the exception. Totality —
callers always receive a `PromoCodeValidation` value — is the return type
of the embedding itself. -/
theorem validate_recovers_backend_failure
    (dateParse : String → Option Int) (c : Cache) (now : Int)
    (code : String) (planId userId : Option String) (e : String)
    (hq : (validatePromoCode dateParse c now (some (Except.error e))
        code planId userId).queriedCatalog = true) :
    (validatePromoCode dateParse c now (some (Except.error e))
        code planId userId).validation = validationFailed ∧
    (validatePromoCode dateParse c now (some (Except.error e))
        code planId userId).validation.isValid = false := by
  cases hg : getCachedValidation dateParse c now (cacheKey code planId userId) with
  | mk ov c1 =>
    cases ov with
    | none =>
      rw [validatePromoCode, hg]
      exact ⟨rfl, rfl⟩
    | some v =>
      rw [validatePromoCode, hg] at hq
      simp at hq

/-- C8 witness: a thrown backend failure on a cache miss yields exactly the
recovered `VALIDATION_FAILED` value. -/
theorem validate_recovers_backend_failure_witness :
    (validatePromoCode (fun _ => none) [] 0
        (some (Except.error "network down")) "SAVE20" none none).validation
      = validationFailed ∧
    (validatePromoCode (fun _ => none) [] 0
        (some (Except.error "network down")) "SAVE20" none none).validation.isValid
      = false := by
  exact validate_recovers_backend_failure (fun _ => none) [] 0
    "SAVE20" none none "network down" rfl

/-- C4 (code-bug evaluation): billing succeeds with SAVE20 applied —
`SET_PURCHASE_STATE success` is dispatched and `onPurchaseSuccess`
fires — but the subsequent redemption failure is caught by the catch block
of `purchasePlan`, which dispatches `SET_PURCHASE_STATE error` and `SET_ERROR`,
replacing the already-succeeded purchase outcome with an error state (and
skipping `CLEAR_PROMO_CODE`, so the promo is not cleared either). -/
theorem redeem_failure_overwrites_success_state :
    (purchasePlan appliedPaywallState appliedPromoState
        (Except.ok samplePurchase)
        (Except.error "Failed to redeem promo code")).events
      = ["onPurchaseStart", "onPurchaseSuccess", "onPurchaseError"] ∧
    (purchasePlan appliedPaywallState appliedPromoState
        (Except.ok samplePurchase)
        (Except.error "Failed to redeem promo code")).pay.purchaseState
      = PurchasePhase.error ∧
    (purchasePlan appliedPaywallState appliedPromoState
        (Except.ok samplePurchase)
        (Except.error "Failed to redeem promo code")).pay.error
      = some "Failed to redeem promo code" ∧
    (purchasePlan appliedPaywallState appliedPromoState
        (Except.ok samplePurchase)
        (Except.error "Failed to redeem promo code")).promo.appliedPromo.isSome
      = true := by
  refine ⟨?_, ?_, ?_, ?_⟩ <;> decide

/-- C5 counterexample: from a state whose `purchaseState` is already
`processing` (with a plan selected), a second `purchasePlan` call is NOT
rejected: it invokes the billing collaborator again and drives the state
machine through `processing` to `success`. -/
theorem purchase_while_processing_invokes_billing :
    processingPaywallState.purchaseState = PurchasePhase.processing ∧
    (purchasePlan processingPaywallState initialPromoCodeState
        (Except.ok samplePurchase) (Except.ok ())).billingInvoked = true ∧
    (purchasePlan processingPaywallState initialPromoCodeState
        (Except.ok samplePurchase) (Except.ok ())).pay.purchaseState
      = PurchasePhase.success := by
  refine ⟨rfl, ?_, ?_⟩ <;> decide

/-- C5 amended: the only guard in `purchasePlan` is the missing-plan check: the
billing collaborator is invoked exactly when a plan is selected —
regardless of the current `purchaseState`, including `processing` — and
with no plan selected the call dispatches only the "No plan selected"
error, leaving everything else untouched. -/
theorem purchasePlan_guard_only_no_plan
    (pst : PaywallState) (pcs : PromoCodeState)
    (billing : Except String PurchaseInfo) (redeem : Except String Unit) :
    (purchasePlan pst pcs billing redeem).billingInvoked
      = pst.selectedPlan.isSome ∧
    (pst.selectedPlan = none →
      purchasePlan pst pcs billing redeem
        = { pay := paywallReducer pst
              (PaywallAction.setError (some "No plan selected"))
            promo := pcs, billingInvoked := false, events := [] }) := by
  cases hsel : pst.selectedPlan with
  | none =>
    exact ⟨by simp [purchasePlan, hsel], fun _ => by simp [purchasePlan, hsel]⟩
  | some p =>
    refine ⟨?_, fun h => ?_⟩
    · cases billing with
      | error m => simp [purchasePlan, hsel]
      | ok i =>
        cases hap : pcs.appliedPromo with
        | none => simp [purchasePlan, hsel, hap]
        | some a =>
          cases redeem with
          | error em => simp [purchasePlan, hsel, hap]
          | ok u => simp [purchasePlan, hsel, hap]
    · exact absurd h (by simp)

/-- C5 witness: from the concrete `processing` state the billing
collaborator is invoked (`selectedPlan.isSome = true`), and from the
initial state (no plan) the call reduces to the error dispatch alone. -/
theorem purchasePlan_guard_only_no_plan_witness :
    (purchasePlan processingPaywallState initialPromoCodeState
        (Except.ok samplePurchase) (Except.ok ())).billingInvoked
      = processingPaywallState.selectedPlan.isSome ∧
    purchasePlan initialPaywallState initialPromoCodeState
        (Except.ok samplePurchase) (Except.ok ())
      = { pay := paywallReducer initialPaywallState
            (PaywallAction.setError (some "No plan selected"))
          promo := initialPromoCodeState
          billingInvoked := false, events := [] } := by
  exact ⟨(purchasePlan_guard_only_no_plan processingPaywallState
      initialPromoCodeState (Except.ok samplePurchase) (Except.ok ())).1,
    (purchasePlan_guard_only_no_plan initialPaywallState
      initialPromoCodeState (Except.ok samplePurchase) (Except.ok ())).2 rfl⟩

/-- C9 counterexample: the state reached by applying SAVE20 and then
hiding the paywall (`HIDE_PAYWALL` clears `selectedPlan` but leaves the
promo application live) — calling `removePromoCode` there clears the promo
state but does NOT restore `selectedPlan` to the `originalPlan` of the
application: it stays `none`. -/
theorem remove_after_hide_does_not_restore_plan :
    appliedPromoState.appliedPromo.isSome = true ∧
    hiddenPaywallState.selectedPlan = none ∧
    (removePromoCode hiddenPaywallState appliedPromoState).1.selectedPlan = none ∧
    (removePromoCode hiddenPaywallState appliedPromoState).1.selectedPlan
      ≠ some save20Application.originalPlan ∧
    (removePromoCode hiddenPaywallState appliedPromoState).2.appliedPromo = none := by
  refine ⟨rfl, rfl, ?_, ?_, ?_⟩ <;> decide

/-- C9 amended: with a live promo application, `removePromoCode` always
clears code, validation and applied record together in one reducer action
(never partially); `selectedPlan` is restored to the `originalPlan` of the
application whenever a plan is currently selected, but when
`selectedPlan` is unset (e.g. after `hidePaywall`) the restore branch is
skipped and the paywall state is left unchanged. -/
theorem removePromoCode_restores_and_clears
    (pst : PaywallState) (pcs : PromoCodeState) (app : PromoCodeApplication)
    (happ : pcs.appliedPromo = some app) :
    (removePromoCode pst pcs).2
      = { pcs with code := "", validation := none, appliedPromo := none } ∧
    (∀ p, pst.selectedPlan = some p →
      (removePromoCode pst pcs).1
        = paywallReducer pst (PaywallAction.selectPlan app.originalPlan)) ∧
    (pst.selectedPlan = none → (removePromoCode pst pcs).1 = pst) := by
  refine ⟨?_, fun p hp => ?_, fun hn => ?_⟩
  · cases hsel : pst.selectedPlan <;>
      simp [removePromoCode, promoCodeReducer, hsel, happ]
  · simp [removePromoCode, hp, happ]
  · simp [removePromoCode, hn, happ]

/-- C9 witness: at the applied state (plan still selected), remove clears
the promo state entirely and restores the original (pre-discount) plan. -/
theorem removePromoCode_restores_and_clears_witness :
    (removePromoCode appliedPaywallState appliedPromoState).2
      = { appliedPromoState with
          code := "", validation := none, appliedPromo := none } ∧
    (removePromoCode appliedPaywallState appliedPromoState).1
      = paywallReducer appliedPaywallState
          (PaywallAction.selectPlan save20Application.originalPlan) := by
  have h := removePromoCode_restores_and_clears appliedPaywallState
    appliedPromoState save20Application rfl
  exact ⟨h.1, h.2.1 (applyDiscountToPlan monthlyPlan save20) rfl⟩

end Paywall
